import Mathlib

/-!
# Verification of the Yandex Webmaster API client's protocol layer

A shallow embedding, in Lean 4, of the request/response protocol layer of the
`yandex-webmaster-api` Rust crate: the error taxonomy (`src/error.rs`), the
authentication middleware (`src/middleware.rs`), and the generic request
helpers, error classifier and endpoint URL builders (`src/client.rs`), together
with the query-string configuration applied to the filter DTOs (`src/dto.rs`).

JSON values are modelled by the inductive `JsonValue` (the shape of
`serde_json::Value`); `json_from_str` is an executable model of
`serde_json::from_str`'s parsing front end.  Numbers are modelled as integers:
the protocol layer only ever decodes integer fields (`user_id`), so fractional
and exponent literals are left outside the model (the parser rejects them).
-/

/-- The shape of `serde_json::Value`: null, booleans, (integer) numbers,
strings, arrays and objects.  Objects keep their fields as an ordered
association list, the order in which a serde `MapAccess` yields them. -/
inductive JsonValue where
  | null : JsonValue
  | bool (b : Bool) : JsonValue
  | num (n : Int) : JsonValue
  | str (s : String) : JsonValue
  | arr (items : List JsonValue) : JsonValue
  | obj (fields : List (String × JsonValue)) : JsonValue

/-- JSON whitespace, as accepted by `serde_json` between tokens. -/
def isJsonWs (c : Char) : Bool :=
  c = ' ' || c = '\t' || c = '\n' || c = '\r'

/-- Drop leading JSON whitespace. -/
def skipWs (cs : List Char) : List Char :=
  cs.dropWhile isJsonWs

/-- Hex digit value, for `\uXXXX` escapes. -/
def hexDigitVal (c : Char) : Option Nat :=
  if '0' ≤ c ∧ c ≤ '9' then some (c.toNat - '0'.toNat)
  else if 'a' ≤ c ∧ c ≤ 'f' then some (c.toNat - 'a'.toNat + 10)
  else if 'A' ≤ c ∧ c ≤ 'F' then some (c.toNat - 'A'.toNat + 10)
  else none

/-- Parse the remainder of a JSON string literal (the opening quote already
consumed), unescaping as `serde_json` does.  Surrogate escapes are rejected,
raw control characters are rejected. -/
def parseStrRest : Nat → List Char → List Char → Option (String × List Char)
  | 0, _, _ => none
  | _ + 1, acc, '"' :: rest => some (String.mk acc.reverse, rest)
  | fuel + 1, acc, '\\' :: e :: rest =>
    match e with
    | '"' => parseStrRest fuel ('"' :: acc) rest
    | '\\' => parseStrRest fuel ('\\' :: acc) rest
    | '/' => parseStrRest fuel ('/' :: acc) rest
    | 'b' => parseStrRest fuel ('\x08' :: acc) rest
    | 'f' => parseStrRest fuel ('\x0c' :: acc) rest
    | 'n' => parseStrRest fuel ('\n' :: acc) rest
    | 'r' => parseStrRest fuel ('\r' :: acc) rest
    | 't' => parseStrRest fuel ('\t' :: acc) rest
    | 'u' =>
      match rest with
      | h1 :: h2 :: h3 :: h4 :: rest' =>
        match hexDigitVal h1, hexDigitVal h2, hexDigitVal h3, hexDigitVal h4 with
        | some a, some b, some c, some d =>
          let n := ((a * 16 + b) * 16 + c) * 16 + d
          if h : n.isValidChar then parseStrRest fuel (Char.ofNatAux n h :: acc) rest'
          else none
        | _, _, _, _ => none
      | _ => none
    | _ => none
  | fuel + 1, acc, c :: rest =>
    if c.toNat < 0x20 then none else parseStrRest fuel (c :: acc) rest
  | _ + 1, _, [] => none

/-- Parse a JSON integer literal.  A following `.`, `e` or `E` (a fractional or
exponent part) is outside the integer model and rejected. -/
def parseIntLit (cs : List Char) : Option (JsonValue × List Char) :=
  let (neg, cs1) := match cs with
    | '-' :: rest => (true, rest)
    | _ => (false, cs)
  let digits := cs1.takeWhile Char.isDigit
  let rest := cs1.dropWhile Char.isDigit
  if digits.isEmpty then none
  else match rest with
    | '.' :: _ => none
    | 'e' :: _ => none
    | 'E' :: _ => none
    | _ =>
      let v : Nat := digits.foldl (fun acc c => acc * 10 + (c.toNat - '0'.toNat)) 0
      some (.num (if neg then -(v : Int) else (v : Int)), rest)

mutual

/-- Parse one JSON value (fuel-based recursion; the fuel passed at top level is
generously larger than the input). -/
def parseVal : Nat → List Char → Option (JsonValue × List Char)
  | 0, _ => none
  | fuel + 1, cs =>
    match skipWs cs with
    | 'n' :: 'u' :: 'l' :: 'l' :: rest => some (.null, rest)
    | 't' :: 'r' :: 'u' :: 'e' :: rest => some (.bool true, rest)
    | 'f' :: 'a' :: 'l' :: 's' :: 'e' :: rest => some (.bool false, rest)
    | '"' :: rest =>
      match parseStrRest (rest.length + 1) [] rest with
      | some (s, rest') => some (.str s, rest')
      | none => none
    | '[' :: rest =>
      match skipWs rest with
      | ']' :: rest' => some (.arr [], rest')
      | cs' =>
        match parseArrItems fuel cs' with
        | some (items, rest') => some (.arr items, rest')
        | none => none
    | '{' :: rest =>
      match skipWs rest with
      | '}' :: rest' => some (.obj [], rest')
      | cs' =>
        match parseObjItems fuel cs' with
        | some (fields, rest') => some (.obj fields, rest')
        | none => none
    | cs' => parseIntLit cs'

/-- Parse one or more comma-separated array items followed by `]`. -/
def parseArrItems : Nat → List Char → Option (List JsonValue × List Char)
  | 0, _ => none
  | fuel + 1, cs =>
    match parseVal fuel cs with
    | some (v, rest) =>
      match skipWs rest with
      | ',' :: rest' =>
        match parseArrItems fuel (skipWs rest') with
        | some (items, rest'') => some (v :: items, rest'')
        | none => none
      | ']' :: rest' => some ([v], rest')
      | _ => none
    | none => none

/-- Parse one or more comma-separated `"key": value` members followed by `}`. -/
def parseObjItems : Nat → List Char → Option (List (String × JsonValue) × List Char)
  | 0, _ => none
  | fuel + 1, cs =>
    match skipWs cs with
    | '"' :: rest =>
      match parseStrRest (rest.length + 1) [] rest with
      | some (k, rest1) =>
        match skipWs rest1 with
        | ':' :: rest2 =>
          match parseVal fuel rest2 with
          | some (v, rest3) =>
            match skipWs rest3 with
            | ',' :: rest4 =>
              match parseObjItems fuel rest4 with
              | some (fields, rest5) => some ((k, v) :: fields, rest5)
              | none => none
            | '}' :: rest4 => some ([(k, v)], rest4)
            | _ => none
          | none => none
        | _ => none
      | none => none
    | _ => none

end

/-- Model of the parsing front end of `serde_json::from_str`: one JSON value
followed only by whitespace. -/
def json_from_str (s : String) : Option JsonValue :=
  match parseVal (2 * s.length + 2) s.data with
  | some (v, rest) => if (skipWs rest).isEmpty then some v else none
  | none => none

/-!
## Error taxonomy (`src/error.rs`)

`YandexErrorCode` is the closed enumeration of the API's documented error
codes, with the open catch-all `Unknown` variant.  On the wire each closed
variant is the `SCREAMING_SNAKE_CASE` rendering of its name
(`#[serde(rename_all = "SCREAMING_SNAKE_CASE")]`), and `Unknown` is
`#[serde(untagged)]`: it (de)serializes as the bare inner string.
-/

/-- The error-code enumeration of `src/error.rs` (`YandexErrorCode`). -/
inductive YandexErrorCode where
  | EmptyDates
  | EmptyPaths
  | EntityValidationError
  | FieldValidationError
  | InvalidUrl
  | NoChanges
  | SomeDatesAreUnavailable
  | UrlsAreCorrupted
  | WrongRegion
  | AccessForbidden
  | InvalidOauthToken
  | InvalidUserId
  | HostsLimitExceeded
  | FeedsLimitExceeded
  | BatchLimitExceeded
  | FeedsCategoryBan
  | LimitsExceeded
  | ResourceNotFound
  | HostNotIndexed
  | HostNotLoaded
  | HostNotVerified
  | HostNotFound
  | SitemapNotFound
  | SitemapNotAdded
  | TaskNotFound
  | QueryIdNotFound
  | BadHttpCode
  | BadMimeType
  | RequestNotFound
  | TimedOut
  | FeedAlreadyAdded
  | OnlyHttps
  | ManyUrlsForRemove
  | IncorrectUrl
  | NotExist
  | MethodNotAllowed
  | ContentTypeUnsupported
  | UrlAlreadyAdded
  | HostAlreadyAdded
  | VerificationAlreadyInProgress
  | TextAlreadyAdded
  | SitemapAlreadyAdded
  | UploadAddressExpired
  | RequestEntityTooLarge
  | PayloadTooLarge
  | ContentEncodingUnsupported
  | TextLengthConstraintsViolation
  | NoVerificationRecord
  | QuotaExceeded
  | TooManyRequestsError
  | Unknown (code : String)
deriving Repr

/-- An injective encoding of the taxonomy (closed variants to their position,
the fallback to its string), used to give a decidable equality whose term
stays shallow. -/
def codeIdx : YandexErrorCode → Nat ⊕ String
  | .EmptyDates => .inl 0
  | .EmptyPaths => .inl 1
  | .EntityValidationError => .inl 2
  | .FieldValidationError => .inl 3
  | .InvalidUrl => .inl 4
  | .NoChanges => .inl 5
  | .SomeDatesAreUnavailable => .inl 6
  | .UrlsAreCorrupted => .inl 7
  | .WrongRegion => .inl 8
  | .AccessForbidden => .inl 9
  | .InvalidOauthToken => .inl 10
  | .InvalidUserId => .inl 11
  | .HostsLimitExceeded => .inl 12
  | .FeedsLimitExceeded => .inl 13
  | .BatchLimitExceeded => .inl 14
  | .FeedsCategoryBan => .inl 15
  | .LimitsExceeded => .inl 16
  | .ResourceNotFound => .inl 17
  | .HostNotIndexed => .inl 18
  | .HostNotLoaded => .inl 19
  | .HostNotVerified => .inl 20
  | .HostNotFound => .inl 21
  | .SitemapNotFound => .inl 22
  | .SitemapNotAdded => .inl 23
  | .TaskNotFound => .inl 24
  | .QueryIdNotFound => .inl 25
  | .BadHttpCode => .inl 26
  | .BadMimeType => .inl 27
  | .RequestNotFound => .inl 28
  | .TimedOut => .inl 29
  | .FeedAlreadyAdded => .inl 30
  | .OnlyHttps => .inl 31
  | .ManyUrlsForRemove => .inl 32
  | .IncorrectUrl => .inl 33
  | .NotExist => .inl 34
  | .MethodNotAllowed => .inl 35
  | .ContentTypeUnsupported => .inl 36
  | .UrlAlreadyAdded => .inl 37
  | .HostAlreadyAdded => .inl 38
  | .VerificationAlreadyInProgress => .inl 39
  | .TextAlreadyAdded => .inl 40
  | .SitemapAlreadyAdded => .inl 41
  | .UploadAddressExpired => .inl 42
  | .RequestEntityTooLarge => .inl 43
  | .PayloadTooLarge => .inl 44
  | .ContentEncodingUnsupported => .inl 45
  | .TextLengthConstraintsViolation => .inl 46
  | .NoVerificationRecord => .inl 47
  | .QuotaExceeded => .inl 48
  | .TooManyRequestsError => .inl 49
  | .Unknown s => .inr s

/-- A left inverse of `codeIdx`. -/
def codeIdxInv : Nat ⊕ String → YandexErrorCode
  | .inl 0 => .EmptyDates
  | .inl 1 => .EmptyPaths
  | .inl 2 => .EntityValidationError
  | .inl 3 => .FieldValidationError
  | .inl 4 => .InvalidUrl
  | .inl 5 => .NoChanges
  | .inl 6 => .SomeDatesAreUnavailable
  | .inl 7 => .UrlsAreCorrupted
  | .inl 8 => .WrongRegion
  | .inl 9 => .AccessForbidden
  | .inl 10 => .InvalidOauthToken
  | .inl 11 => .InvalidUserId
  | .inl 12 => .HostsLimitExceeded
  | .inl 13 => .FeedsLimitExceeded
  | .inl 14 => .BatchLimitExceeded
  | .inl 15 => .FeedsCategoryBan
  | .inl 16 => .LimitsExceeded
  | .inl 17 => .ResourceNotFound
  | .inl 18 => .HostNotIndexed
  | .inl 19 => .HostNotLoaded
  | .inl 20 => .HostNotVerified
  | .inl 21 => .HostNotFound
  | .inl 22 => .SitemapNotFound
  | .inl 23 => .SitemapNotAdded
  | .inl 24 => .TaskNotFound
  | .inl 25 => .QueryIdNotFound
  | .inl 26 => .BadHttpCode
  | .inl 27 => .BadMimeType
  | .inl 28 => .RequestNotFound
  | .inl 29 => .TimedOut
  | .inl 30 => .FeedAlreadyAdded
  | .inl 31 => .OnlyHttps
  | .inl 32 => .ManyUrlsForRemove
  | .inl 33 => .IncorrectUrl
  | .inl 34 => .NotExist
  | .inl 35 => .MethodNotAllowed
  | .inl 36 => .ContentTypeUnsupported
  | .inl 37 => .UrlAlreadyAdded
  | .inl 38 => .HostAlreadyAdded
  | .inl 39 => .VerificationAlreadyInProgress
  | .inl 40 => .TextAlreadyAdded
  | .inl 41 => .SitemapAlreadyAdded
  | .inl 42 => .UploadAddressExpired
  | .inl 43 => .RequestEntityTooLarge
  | .inl 44 => .PayloadTooLarge
  | .inl 45 => .ContentEncodingUnsupported
  | .inl 46 => .TextLengthConstraintsViolation
  | .inl 47 => .NoVerificationRecord
  | .inl 48 => .QuotaExceeded
  | .inl 49 => .TooManyRequestsError
  | .inl _ => .Unknown ""
  | .inr s => .Unknown s

lemma codeIdxInv_codeIdx (a : YandexErrorCode) : codeIdxInv (codeIdx a) = a := by
  cases a <;> rfl

instance : DecidableEq YandexErrorCode := fun a b =>
  decidable_of_iff (codeIdx a = codeIdx b)
    ⟨fun h => by rw [← codeIdxInv_codeIdx a, h, codeIdxInv_codeIdx],
     fun h => by rw [h]⟩

/-- The wire string of every code: the `SCREAMING_SNAKE_CASE` rename of a
closed variant, the captured string of `Unknown` (serde serializes the
untagged variant as its bare inner string). -/
def codeWireString : YandexErrorCode → String
  | .EmptyDates => "EMPTY_DATES"
  | .EmptyPaths => "EMPTY_PATHS"
  | .EntityValidationError => "ENTITY_VALIDATION_ERROR"
  | .FieldValidationError => "FIELD_VALIDATION_ERROR"
  | .InvalidUrl => "INVALID_URL"
  | .NoChanges => "NO_CHANGES"
  | .SomeDatesAreUnavailable => "SOME_DATES_ARE_UNAVAILABLE"
  | .UrlsAreCorrupted => "URLS_ARE_CORRUPTED"
  | .WrongRegion => "WRONG_REGION"
  | .AccessForbidden => "ACCESS_FORBIDDEN"
  | .InvalidOauthToken => "INVALID_OAUTH_TOKEN"
  | .InvalidUserId => "INVALID_USER_ID"
  | .HostsLimitExceeded => "HOSTS_LIMIT_EXCEEDED"
  | .FeedsLimitExceeded => "FEEDS_LIMIT_EXCEEDED"
  | .BatchLimitExceeded => "BATCH_LIMIT_EXCEEDED"
  | .FeedsCategoryBan => "FEEDS_CATEGORY_BAN"
  | .LimitsExceeded => "LIMITS_EXCEEDED"
  | .ResourceNotFound => "RESOURCE_NOT_FOUND"
  | .HostNotIndexed => "HOST_NOT_INDEXED"
  | .HostNotLoaded => "HOST_NOT_LOADED"
  | .HostNotVerified => "HOST_NOT_VERIFIED"
  | .HostNotFound => "HOST_NOT_FOUND"
  | .SitemapNotFound => "SITEMAP_NOT_FOUND"
  | .SitemapNotAdded => "SITEMAP_NOT_ADDED"
  | .TaskNotFound => "TASK_NOT_FOUND"
  | .QueryIdNotFound => "QUERY_ID_NOT_FOUND"
  | .BadHttpCode => "BAD_HTTP_CODE"
  | .BadMimeType => "BAD_MIME_TYPE"
  | .RequestNotFound => "REQUEST_NOT_FOUND"
  | .TimedOut => "TIMED_OUT"
  | .FeedAlreadyAdded => "FEED_ALREADY_ADDED"
  | .OnlyHttps => "ONLY_HTTPS"
  | .ManyUrlsForRemove => "MANY_URLS_FOR_REMOVE"
  | .IncorrectUrl => "INCORRECT_URL"
  | .NotExist => "NOT_EXIST"
  | .MethodNotAllowed => "METHOD_NOT_ALLOWED"
  | .ContentTypeUnsupported => "CONTENT_TYPE_UNSUPPORTED"
  | .UrlAlreadyAdded => "URL_ALREADY_ADDED"
  | .HostAlreadyAdded => "HOST_ALREADY_ADDED"
  | .VerificationAlreadyInProgress => "VERIFICATION_ALREADY_IN_PROGRESS"
  | .TextAlreadyAdded => "TEXT_ALREADY_ADDED"
  | .SitemapAlreadyAdded => "SITEMAP_ALREADY_ADDED"
  | .UploadAddressExpired => "UPLOAD_ADDRESS_EXPIRED"
  | .RequestEntityTooLarge => "REQUEST_ENTITY_TOO_LARGE"
  | .PayloadTooLarge => "PAYLOAD_TOO_LARGE"
  | .ContentEncodingUnsupported => "CONTENT_ENCODING_UNSUPPORTED"
  | .TextLengthConstraintsViolation => "TEXT_LENGTH_CONSTRAINTS_VIOLATION"
  | .NoVerificationRecord => "NO_VERIFICATION_RECORD"
  | .QuotaExceeded => "QUOTA_EXCEEDED"
  | .TooManyRequestsError => "TOO_MANY_REQUESTS_ERROR"
  | .Unknown s => s

/-- The wire name of a closed (tagged) variant; `none` for the untagged
fallback. -/
def codeWireName (c : YandexErrorCode) : Option String :=
  match c with
  | .Unknown _ => none
  | c => some (codeWireString c)

/-- The closed set of known wire names, as matched by the serde-derived
deserializer before it falls back to the untagged variant. -/
def knownYandexErrorCodeOfString : String → Option YandexErrorCode
  | "EMPTY_DATES" => some .EmptyDates
  | "EMPTY_PATHS" => some .EmptyPaths
  | "ENTITY_VALIDATION_ERROR" => some .EntityValidationError
  | "FIELD_VALIDATION_ERROR" => some .FieldValidationError
  | "INVALID_URL" => some .InvalidUrl
  | "NO_CHANGES" => some .NoChanges
  | "SOME_DATES_ARE_UNAVAILABLE" => some .SomeDatesAreUnavailable
  | "URLS_ARE_CORRUPTED" => some .UrlsAreCorrupted
  | "WRONG_REGION" => some .WrongRegion
  | "ACCESS_FORBIDDEN" => some .AccessForbidden
  | "INVALID_OAUTH_TOKEN" => some .InvalidOauthToken
  | "INVALID_USER_ID" => some .InvalidUserId
  | "HOSTS_LIMIT_EXCEEDED" => some .HostsLimitExceeded
  | "FEEDS_LIMIT_EXCEEDED" => some .FeedsLimitExceeded
  | "BATCH_LIMIT_EXCEEDED" => some .BatchLimitExceeded
  | "FEEDS_CATEGORY_BAN" => some .FeedsCategoryBan
  | "LIMITS_EXCEEDED" => some .LimitsExceeded
  | "RESOURCE_NOT_FOUND" => some .ResourceNotFound
  | "HOST_NOT_INDEXED" => some .HostNotIndexed
  | "HOST_NOT_LOADED" => some .HostNotLoaded
  | "HOST_NOT_VERIFIED" => some .HostNotVerified
  | "HOST_NOT_FOUND" => some .HostNotFound
  | "SITEMAP_NOT_FOUND" => some .SitemapNotFound
  | "SITEMAP_NOT_ADDED" => some .SitemapNotAdded
  | "TASK_NOT_FOUND" => some .TaskNotFound
  | "QUERY_ID_NOT_FOUND" => some .QueryIdNotFound
  | "BAD_HTTP_CODE" => some .BadHttpCode
  | "BAD_MIME_TYPE" => some .BadMimeType
  | "REQUEST_NOT_FOUND" => some .RequestNotFound
  | "TIMED_OUT" => some .TimedOut
  | "FEED_ALREADY_ADDED" => some .FeedAlreadyAdded
  | "ONLY_HTTPS" => some .OnlyHttps
  | "MANY_URLS_FOR_REMOVE" => some .ManyUrlsForRemove
  | "INCORRECT_URL" => some .IncorrectUrl
  | "NOT_EXIST" => some .NotExist
  | "METHOD_NOT_ALLOWED" => some .MethodNotAllowed
  | "CONTENT_TYPE_UNSUPPORTED" => some .ContentTypeUnsupported
  | "URL_ALREADY_ADDED" => some .UrlAlreadyAdded
  | "HOST_ALREADY_ADDED" => some .HostAlreadyAdded
  | "VERIFICATION_ALREADY_IN_PROGRESS" => some .VerificationAlreadyInProgress
  | "TEXT_ALREADY_ADDED" => some .TextAlreadyAdded
  | "SITEMAP_ALREADY_ADDED" => some .SitemapAlreadyAdded
  | "UPLOAD_ADDRESS_EXPIRED" => some .UploadAddressExpired
  | "REQUEST_ENTITY_TOO_LARGE" => some .RequestEntityTooLarge
  | "PAYLOAD_TOO_LARGE" => some .PayloadTooLarge
  | "CONTENT_ENCODING_UNSUPPORTED" => some .ContentEncodingUnsupported
  | "TEXT_LENGTH_CONSTRAINTS_VIOLATION" => some .TextLengthConstraintsViolation
  | "NO_VERIFICATION_RECORD" => some .NoVerificationRecord
  | "QUOTA_EXCEEDED" => some .QuotaExceeded
  | "TOO_MANY_REQUESTS_ERROR" => some .TooManyRequestsError
  | _ => none

/-- The string a code-string decodes to: a known variant when the string is in
the closed set, otherwise the untagged fallback carrying the string. -/
def codeOfWireString (s : String) : YandexErrorCode :=
  match knownYandexErrorCodeOfString s with
  | some c => c
  | none => .Unknown s

/-- Deserialization of `YandexErrorCode` from a JSON value: the closed
variants only match their wire-name string; on any other string the
`#[serde(untagged)]` fallback deserializes the plain `String`.  A non-string
value matches neither the tagged variants nor `String`, so decoding fails. -/
def decodeYandexErrorCode : JsonValue → Option YandexErrorCode
  | .str s => some (codeOfWireString s)
  | _ => none

/-- The error response body of `src/error.rs` (`YandexApiErrorResponse`). -/
structure YandexApiErrorResponse where
  error_code : YandexErrorCode
  error_message : String
  acceptable_types : Option (List String)
  valid_until : Option String
deriving DecidableEq, Repr

/-- Deserialize a JSON array of strings (`Vec<String>`). -/
def decodeStringList : JsonValue → Option (List String)
  | .arr items =>
    items.foldr (fun it acc =>
      match it, acc with
      | .str s, some ss => some (s :: ss)
      | _, _ => none) (some [])
  | _ => none

/-- Deserialize an `Option` field that is present in the object: JSON `null`
is `None`, anything else goes through the inner deserializer. -/
def decodeOptionField (dec : JsonValue → Option α) : JsonValue → Option (Option α)
  | .null => some none
  | v => (dec v).map some

/-- The serde-derived struct visitor for `YandexApiErrorResponse`, folded over
the object's fields in order: a known field fills its slot (a duplicate is an
error), an unknown field is ignored, and at the end the two mandatory fields
must be filled while a never-seen `Option` field becomes `None`. -/
def decodeErrFields :
    List (String × JsonValue) → Option YandexErrorCode → Option String →
    Option (Option (List String)) → Option (Option String) →
    Option YandexApiErrorResponse
  | [], code?, msg?, types?, until? =>
    match code?, msg? with
    | some code, some msg =>
      some ⟨code, msg, types?.getD none, until?.getD none⟩
    | _, _ => none
  | (k, v) :: rest, code?, msg?, types?, until? =>
    if k = "error_code" then
      match code? with
      | some _ => none
      | none =>
        match decodeYandexErrorCode v with
        | some c => decodeErrFields rest (some c) msg? types? until?
        | none => none
    else if k = "error_message" then
      match msg? with
      | some _ => none
      | none =>
        match v with
        | .str m => decodeErrFields rest code? (some m) types? until?
        | _ => none
    else if k = "acceptable_types" then
      match types? with
      | some _ => none
      | none =>
        match decodeOptionField decodeStringList v with
        | some t => decodeErrFields rest code? msg? (some t) until?
        | none => none
    else if k = "valid_until" then
      match until? with
      | some _ => none
      | none =>
        match decodeOptionField (fun j => match j with | .str s => some s | _ => none) v with
        | some u => decodeErrFields rest code? msg? types? (some u)
        | none => none
    else
      decodeErrFields rest code? msg? types? until?

/-- Deserialize `YandexApiErrorResponse` from a JSON value (a struct only
deserializes from an object). -/
def decodeYandexApiErrorResponse : JsonValue → Option YandexApiErrorResponse
  | .obj fields => decodeErrFields fields none none none none
  | _ => none

/-- Model of `serde_json::from_str::<YandexApiErrorResponse>`: parse, then decode. -/
def errorResponseFromStr (s : String) : Option YandexApiErrorResponse :=
  (json_from_str s).bind decodeYandexApiErrorResponse

/-!
## `Display` for `YandexErrorCode` (`src/error.rs`, lines 89–99)

The `Unknown` arm writes its raw string.  The wildcard arm (reached only by
closed variants) runs `serde_json::to_string(self)` — which for a closed
variant is the JSON rendering of its wire-name string — and strips every
leading and trailing `"` with `trim_matches('"')`.
-/

/-- serde_json's string escaping: `"` and `\` are escaped, control characters
use the short escapes or `\u00XX`; everything else is written verbatim. -/
def jsonEscapeChar (c : Char) : String :=
  if c = '"' then "\\\""
  else if c = '\\' then "\\\\"
  else if c = '\x08' then "\\b"
  else if c = '\x0c' then "\\f"
  else if c = '\n' then "\\n"
  else if c = '\r' then "\\r"
  else if c = '\t' then "\\t"
  else if c.toNat < 0x20 then
    let lo := c.toNat % 16
    let hi := c.toNat / 16
    let hexDigit := fun (n : Nat) =>
      if n < 10 then Char.ofNat ('0'.toNat + n) else Char.ofNat ('a'.toNat + n - 10)
    "\\u00" ++ String.mk [hexDigit hi, hexDigit lo]
  else String.singleton c

/-- Rendering `serde_json::to_string` gives a JSON string value. -/
def jsonRenderStr (s : String) : String :=
  "\"" ++ String.join (s.data.map jsonEscapeChar) ++ "\""

/-- Rust's `str::trim_matches('"')`: drop every leading and trailing `"`. -/
def trimMatchesQuote (s : String) : String :=
  String.mk (((s.data.dropWhile (· = '"')).reverse.dropWhile (· = '"')).reverse)

/-- The `fmt::Display` implementation for `YandexErrorCode`: `Unknown`
renders its captured string verbatim; a closed variant renders
`serde_json::to_string(self)` (the quoted wire name) with the quotes
trimmed. -/
def displayYandexErrorCode : YandexErrorCode → String
  | .Unknown s => s
  | c => trimMatchesQuote (jsonRenderStr (codeWireString c))

/-!
## Transport-layer model

An HTTP response is a numeric status plus the outcome of reading its body as
text (`Ok` text or a read-failure description, the two arms of
`response.text().await`).  Outgoing requests are the tuple the client hands to
the sender.  `YandexWebmasterError` mirrors the error enum of `src/error.rs`;
wrapped foreign errors (`reqwest`, `serde_json`, `reqwest_middleware`) are
reduced to their kind and display text.
-/

/-- An HTTP response at the point the client inspects it: the status code and
the result of reading the full body as text. -/
structure HttpResponse where
  status : Nat
  body : Except String String

/-- The request tuple handed to the underlying sender. -/
structure SentRequest where
  method : String
  url : String
  headers : List (String × String)
  body : Option String
deriving DecidableEq, Repr

/-- The kind of `reqwest::Error` arising inside the helpers: a body-decode
failure from `Response::json`, or a failure reading the body bytes. -/
inductive ReqwestErrorKind where
  | decodeBody
  | readBody (msg : String)
deriving DecidableEq, Repr

/-- The error enum of `src/error.rs` (`YandexWebmasterError`). -/
inductive YandexWebmasterError where
  | HttpError (e : ReqwestErrorKind)
  | MiddlewareHttpError (msg : String)
  | ParseError (msg : String)
  | SerdeQsError (msg : String)
  | MiddlewareError (msg : String)
  | AuthenticationError
  | ApiError (status : Nat) (response : YandexApiErrorResponse)
  | GenericApiError (msg : String)
deriving DecidableEq, Repr

/-- Model of `StatusCode::is_success()`: the 2xx class. -/
def isSuccessStatus (status : Nat) : Bool :=
  200 ≤ status && status ≤ 299

/-- The canonical reason phrases of the `http` crate's status table (the codes
the remote service can produce; any other code has no canonical reason). -/
def statusCanonicalReason : Nat → Option String
  | 200 => some "OK"
  | 201 => some "Created"
  | 202 => some "Accepted"
  | 204 => some "No Content"
  | 301 => some "Moved Permanently"
  | 302 => some "Found"
  | 304 => some "Not Modified"
  | 400 => some "Bad Request"
  | 401 => some "Unauthorized"
  | 403 => some "Forbidden"
  | 404 => some "Not Found"
  | 405 => some "Method Not Allowed"
  | 406 => some "Not Acceptable"
  | 408 => some "Request Timeout"
  | 409 => some "Conflict"
  | 410 => some "Gone"
  | 413 => some "Payload Too Large"
  | 415 => some "Unsupported Media Type"
  | 422 => some "Unprocessable Entity"
  | 429 => some "Too Many Requests"
  | 500 => some "Internal Server Error"
  | 502 => some "Bad Gateway"
  | 503 => some "Service Unavailable"
  | 504 => some "Gateway Timeout"
  | _ => none

/-- Model of `fmt::Display` for `http::StatusCode`: the number, a space, and the
canonical reason (or the placeholder when the code has none). -/
def statusDisplay (status : Nat) : String :=
  toString status ++ " " ++ ((statusCanonicalReason status).getD "<unknown status code>")

/-- Model of `YandexWebmasterClient::parse_error` (`src/client.rs`, lines 640–687):
read the body text; on success try `serde_json::from_str::<YandexApiErrorResponse>`,
yielding a structured `ApiError` on success and a `GenericApiError` with the
raw text on failure; a body-read failure yields a `GenericApiError` wrapping
the read error's description. -/
def parse_error (response : HttpResponse) : YandexWebmasterError :=
  let status_code := response.status
  match response.body with
  | .ok error_text =>
    match errorResponseFromStr error_text with
    | some api_error => .ApiError status_code api_error
    | none =>
      .GenericApiError
        ("Status: " ++ statusDisplay response.status ++ ", Error: " ++ error_text)
  | .error e =>
    .GenericApiError
      ("Status: " ++ statusDisplay response.status ++ ", Failed to read error response: " ++ e)

/-- Model of `YandexWebmasterClient::handle_response` (`src/client.rs`, lines 691–700):
a non-2xx status is routed to `parse_error`; on a 2xx status
`response.json::<T>()` reads and decodes the body, a failure surfacing as a
wrapped `reqwest::Error` (the `HttpError` variant, via `?`). -/
def handle_response (dec : JsonValue → Option T) (response : HttpResponse) :
    Except YandexWebmasterError T :=
  if !isSuccessStatus response.status then
    .error (parse_error response)
  else
    match response.body with
    | .error e => .error (.HttpError (.readBody e))
    | .ok text =>
      match (json_from_str text).bind dec with
      | some data => .ok data
      | none => .error (.HttpError .decodeBody)

/-- Model of `YandexWebmasterClient::get` (`src/client.rs`, lines 594–600): send a GET
with no body and hand the response to `handle_response`.  `net` is the
transport (`self.client` + `send()`); its error arm is the
`reqwest_middleware::Error` converted by `?`. -/
def clientGet (dec : JsonValue → Option T) (url : String)
    (net : SentRequest → Except String HttpResponse) : Except YandexWebmasterError T :=
  match net { method := "GET", url := url, headers := [], body := none } with
  | .error e => .error (.MiddlewareHttpError e)
  | .ok response => handle_response dec response

/-- Model of `YandexWebmasterClient::post` (`src/client.rs`, lines 604–622): serialize
the body with `serde_json::to_string` (the `ser` argument carries that call's
outcome; its failure is converted by `?` into `ParseError` before anything is
sent), then send a POST with the `Content-Type: application/json` header and
the serialized body, and hand the response to `handle_response`. -/
def clientPost (dec : JsonValue → Option T) (url : String)
    (ser : Except String String)
    (net : SentRequest → Except String HttpResponse) : Except YandexWebmasterError T :=
  match ser with
  | .error e => .error (.ParseError e)
  | .ok json_body =>
    match net { method := "POST", url := url,
                headers := [("Content-Type", "application/json")],
                body := some json_body } with
    | .error e => .error (.MiddlewareHttpError e)
    | .ok response => handle_response dec response

/-- Model of `YandexWebmasterClient::delete` (`src/client.rs`, lines 626–636): send a
DELETE; success is status-only (no body decoding), a failure status is routed
to `parse_error`. -/
def clientDelete (url : String)
    (net : SentRequest → Except String HttpResponse) : Except YandexWebmasterError Unit :=
  match net { method := "DELETE", url := url, headers := [], body := none } with
  | .error e => .error (.MiddlewareHttpError e)
  | .ok response =>
    if !isSuccessStatus response.status then
      .error (parse_error response)
    else
      .ok ()

/-!
## Bootstrap (`src/client.rs`, lines 12, 16–73) and middleware (`src/middleware.rs`)
-/

/-- The constant `API_BASE_URL` (`src/client.rs`, line 12). -/
def API_BASE_URL : String := "https://api.webmaster.yandex.net/v4"

/-- The struct `UserResponse` (`src/dto.rs`): the bootstrap body `{ "user_id": <integer> }`. -/
structure UserResponse where
  user_id : Int
deriving DecidableEq, Repr

/-- Deserialize an `i64`: a JSON integer within the 64-bit signed range. -/
def decodeI64 : JsonValue → Option Int
  | .num n => if -(2 ^ 63) ≤ n ∧ n < 2 ^ 63 then some n else none
  | _ => none

/-- The serde-derived visitor for `UserResponse`, folded over the object's
fields: the mandatory `user_id`, unknown fields ignored. -/
def decodeUserFields : List (String × JsonValue) → Option Int → Option UserResponse
  | [], some uid => some ⟨uid⟩
  | [], none => none
  | (k, v) :: rest, uid? =>
    if k = "user_id" then
      match uid? with
      | some _ => none
      | none =>
        match decodeI64 v with
        | some uid => decodeUserFields rest (some uid)
        | none => none
    else
      decodeUserFields rest uid?

/-- Deserialize `UserResponse` from a JSON value. -/
def decodeUserResponse : JsonValue → Option UserResponse
  | .obj fields => decodeUserFields fields none
  | _ => none

/-- The URL of the identity-resolution call (`format!("{}/user", API_BASE_URL)`). -/
def fetchUserUrl : String := API_BASE_URL ++ "/user"

/-- The bootstrap request: `client.get(&url).send()` on `fetchUserUrl`. -/
def userBootstrapRequest : SentRequest :=
  { method := "GET", url := fetchUserUrl, headers := [], body := none }

/-- Model of `YandexWebmasterClient::fetch_user` (`src/client.rs`, lines 59–73): GET
`{base}/user`; a non-success status is routed through `parse_error`, otherwise
the body is decoded as `UserResponse` (`response.json()`, a failure surfacing
as a wrapped `reqwest::Error` via `?`). -/
def fetch_user (net : SentRequest → Except String HttpResponse) :
    Except YandexWebmasterError UserResponse :=
  match net userBootstrapRequest with
  | .error e => .error (.MiddlewareHttpError e)
  | .ok response =>
    if !isSuccessStatus response.status then
      .error (parse_error response)
    else
      match response.body with
      | .error e => .error (.HttpError (.readBody e))
      | .ok text =>
        match (json_from_str text).bind decodeUserResponse with
        | some user_response => .ok user_response
        | none => .error (.HttpError .decodeBody)

/-- The array format selected for the query-string configuration
(`serde_qs::ArrayFormat`). -/
inductive QsArrayFormat where
  | indexed
  | unindexed
deriving DecidableEq, Repr

/-- The state of a constructed `YandexWebmasterClient`: the resolved identity
and the query-string configuration (the held transport is the `net` function
the model threads separately). -/
structure YandexWebmasterClientState where
  user_id : Int
  qs : QsArrayFormat
deriving DecidableEq, Repr

/-- Model of `YandexWebmasterClient::new` (`src/client.rs`, lines 36–55): assemble the
transport, issue the single identity-resolution call, and only on its success
return a client carrying the resolved `user_id` and the `Unindexed`
query-string configuration; any failure of `fetch_user` propagates via `?`
and no client value exists. -/
def clientNew (net : SentRequest → Except String HttpResponse) :
    Except YandexWebmasterError YandexWebmasterClientState :=
  match fetch_user net with
  | .error e => .error e
  | .ok user_response =>
    .ok { user_id := user_response.user_id, qs := .unindexed }

/-- The bytes of a character's UTF-8 encoding. -/
def charUtf8Bytes (c : Char) : List Nat :=
  let n := c.toNat
  if n < 0x80 then [n]
  else if n < 0x800 then [0xC0 + n / 64, 0x80 + n % 64]
  else if n < 0x10000 then [0xE0 + n / 4096, 0x80 + n / 64 % 64, 0x80 + n % 64]
  else [0xF0 + n / 262144, 0x80 + n / 4096 % 64, 0x80 + n / 64 % 64, 0x80 + n % 64]

/-- The bytes of a string's UTF-8 encoding. -/
def stringUtf8Bytes (s : String) : List Nat :=
  s.data.flatMap charUtf8Bytes

/-- The predicate `http::HeaderValue::from_str` checks: it accepts a byte iff it is visible ASCII,
space, a byte of a multi-byte UTF-8 sequence, or horizontal tab — i.e.
`b >= 32 && b != 127 || b == 9`. -/
def isValidHeaderValueByte (b : Nat) : Bool :=
  (32 ≤ b && b ≠ 127) || b = 9

/-- Whether `HeaderValue::from_str` succeeds on the string. -/
def isValidHeaderValue (s : String) : Bool :=
  (stringUtf8Bytes s).all isValidHeaderValueByte

/-- Model of `http::HeaderMap::insert`: any previously held values under the name are
replaced by the single new value. -/
def headerMapInsert (name value : String) (headers : List (String × String)) :
    List (String × String) :=
  (name, value) :: headers.filter (fun p => p.1 ≠ name)

/-- Model of `AuthMiddleware::handle` (`src/middleware.rs`, lines 20–45): build the
header value `"OAuth <token>"`; if `HeaderValue::from_str` rejects it, fail
with the wrapped middleware error before `next.run` — the `.ok` arm is the
request as handed to the inner sender, the `.error` arm never reaches it. -/
def authMiddlewareHandle (oauth_token : String) (req : SentRequest) :
    Except YandexWebmasterError SentRequest :=
  let value := "OAuth " ++ oauth_token
  if isValidHeaderValue value then
    .ok { req with headers := headerMapInsert "authorization" value req.headers }
  else
    .error (.MiddlewareError
      ("Failed to create authorization header: failed to parse header value"))

/-!
## Query-string encoding (`serde_qs` with `ArrayFormat::Unindexed`)

`YandexWebmasterClient::new` configures
`serde_qs::Config::new().array_format(ArrayFormat::Unindexed)` and the filter
DTOs are serialized through `self.qs.serialize_string(..)`.  The relevant DTO
here is `QueryAnalyticsRequest` (`src/dto.rs`, lines 364–377): one mandatory
`Vec` field and three `Option` fields marked
`#[serde(skip_serializing_if = "Option::is_none")]`.
-/

/-- A hex digit, uppercase, as `percent_encoding` writes it. -/
def hexDigitUpper (n : Nat) : Char :=
  if n < 10 then Char.ofNat ('0'.toNat + n) else Char.ofNat ('A'.toNat + n - 10)

/-- Whether a byte stays unencoded under serde_qs's encode set
(`NON_ALPHANUMERIC` minus `' '`, `'*'`, `'-'`, `'.'`, `'_'`). -/
def qsUnencodedByte (b : Nat) : Bool :=
  ('0'.toNat ≤ b && b ≤ '9'.toNat) ||
  ('A'.toNat ≤ b && b ≤ 'Z'.toNat) ||
  ('a'.toNat ≤ b && b ≤ 'z'.toNat) ||
  b = '*'.toNat || b = '-'.toNat || b = '.'.toNat || b = '_'.toNat

/-- serde_qs's value encoding: percent-encode every byte outside the encode
set, then write spaces as `+`. -/
def qsPercentEncode (s : String) : String :=
  String.mk ((stringUtf8Bytes s).flatMap (fun b =>
    if b = ' '.toNat then ['+']
    else if qsUnencodedByte b then [Char.ofNat b]
    else ['%', hexDigitUpper (b / 16), hexDigitUpper (b % 16)]))

/-- The enum `ApiQueryIndicator` (`src/dto.rs`), `SCREAMING_SNAKE_CASE` on the wire. -/
inductive ApiQueryIndicator where
  | TotalShows
  | TotalClicks
  | AvgShowPosition
  | AvgClickPosition
deriving DecidableEq, Repr

/-- The wire name of an `ApiQueryIndicator`. -/
def apiQueryIndicatorWire : ApiQueryIndicator → String
  | .TotalShows => "TOTAL_SHOWS"
  | .TotalClicks => "TOTAL_CLICKS"
  | .AvgShowPosition => "AVG_SHOW_POSITION"
  | .AvgClickPosition => "AVG_CLICK_POSITION"

/-- The enum `ApiDeviceTypeIndicator` (`src/dto.rs`), `SCREAMING_SNAKE_CASE` on the wire. -/
inductive ApiDeviceTypeIndicator where
  | All
  | Desktop
  | MobileAndTablet
  | Mobile
  | Tablet
deriving DecidableEq, Repr

/-- The wire name of an `ApiDeviceTypeIndicator`. -/
def apiDeviceTypeIndicatorWire : ApiDeviceTypeIndicator → String
  | .All => "ALL"
  | .Desktop => "DESKTOP"
  | .MobileAndTablet => "MOBILE_AND_TABLET"
  | .Mobile => "MOBILE"
  | .Tablet => "TABLET"

/-- A `chrono::DateTime<Utc>` as its serde rendering (an RFC 3339 string);
only that rendering is visible to the query-string layer. -/
structure DateTimeUtc where
  rfc3339 : String
deriving DecidableEq, Repr

/-- The filter struct `QueryAnalyticsRequest` (`src/dto.rs`, lines 364–377). -/
structure QueryAnalyticsRequest where
  query_indicator : List ApiQueryIndicator
  device_type_indicator : Option ApiDeviceTypeIndicator
  date_from : Option DateTimeUtc
  date_to : Option DateTimeUtc
deriving DecidableEq, Repr

/-- The `key=value` pairs `serialize_string` emits for a
`QueryAnalyticsRequest`: serde visits the fields in declaration order, a
`None` optional field is skipped (`skip_serializing_if`), a scalar emits one
pair, and under `ArrayFormat::Unindexed` a sequence repeats its bare key once
per element. -/
def queryAnalyticsPairs (r : QueryAnalyticsRequest) : List (String × String) :=
  (r.query_indicator.map
    (fun i => ("query_indicator", qsPercentEncode (apiQueryIndicatorWire i)))) ++
  (match r.device_type_indicator with
   | none => []
   | some d => [("device_type_indicator", qsPercentEncode (apiDeviceTypeIndicatorWire d))]) ++
  (match r.date_from with
   | none => []
   | some d => [("date_from", qsPercentEncode d.rfc3339)]) ++
  (match r.date_to with
   | none => []
   | some d => [("date_to", qsPercentEncode d.rfc3339)])

/-- Model of `self.qs.serialize_string(&request)` for a `QueryAnalyticsRequest`: the
pairs joined with `&`. -/
def serializeQueryAnalyticsRequest (r : QueryAnalyticsRequest) : String :=
  String.intercalate "&" ((queryAnalyticsPairs r).map (fun p => p.1 ++ "=" ++ p.2))

/-!
## Endpoint URL builders (`src/client.rs`)

Each endpoint method builds its URL with `format!` from `API_BASE_URL`,
`self.user_id` and its path/query arguments, then delegates to the generic
helpers.  The builders below reproduce those `format!` calls; for the methods
whose query string comes from `self.qs.serialize_string(req)?`, the already
serialized query string is the `qs` argument.
-/

/-- The account-scoped prefix every post-construction URL starts with. -/
def urlAccountScope (user_id : Int) : String :=
  API_BASE_URL ++ "/user/" ++ toString user_id

def get_hosts_url (user_id : Int) : String :=
  API_BASE_URL ++ "/user/" ++ toString user_id ++ "/hosts"

def add_host_url (user_id : Int) : String :=
  API_BASE_URL ++ "/user/" ++ toString user_id ++ "/hosts"

def get_host_url (user_id : Int) (host_id : String) : String :=
  API_BASE_URL ++ "/user/" ++ toString user_id ++ "/hosts/" ++ host_id

def delete_host_url (user_id : Int) (host_id : String) : String :=
  API_BASE_URL ++ "/user/" ++ toString user_id ++ "/hosts/" ++ host_id

def get_verification_status_url (user_id : Int) (host_id : String) : String :=
  API_BASE_URL ++ "/user/" ++ toString user_id ++ "/hosts/" ++ host_id ++ "/verification"

def get_owners_url (user_id : Int) (host_id : String) : String :=
  API_BASE_URL ++ "/user/" ++ toString user_id ++ "/hosts/" ++ host_id ++ "/owners"

def get_host_summary_url (user_id : Int) (host_id : String) : String :=
  API_BASE_URL ++ "/user/" ++ toString user_id ++ "/hosts/" ++ host_id ++ "/summary"

def get_sqi_history_url (user_id : Int) (host_id : String) (qs : String) : String :=
  API_BASE_URL ++ "/user/" ++ toString user_id ++ "/hosts/" ++ host_id ++ "/sqi-history?" ++ qs

def get_popular_queries_url (user_id : Int) (host_id : String) (qs : String) : String :=
  API_BASE_URL ++ "/user/" ++ toString user_id ++ "/hosts/" ++ host_id ++
    "/search-queries/popular?" ++ qs

def get_query_analytics_url (user_id : Int) (host_id : String)
    (request : QueryAnalyticsRequest) : String :=
  API_BASE_URL ++ "/user/" ++ toString user_id ++ "/hosts/" ++ host_id ++
    "/search-queries/all/history?" ++ serializeQueryAnalyticsRequest request

def get_query_history_url (user_id : Int) (host_id query_id : String) (qs : String) : String :=
  API_BASE_URL ++ "/user/" ++ toString user_id ++ "/hosts/" ++ host_id ++
    "/search-queries/" ++ query_id ++ "/history?" ++ qs

def get_sitemaps_url (user_id : Int) (host_id : String) (qs : String) : String :=
  API_BASE_URL ++ "/user/" ++ toString user_id ++ "/hosts/" ++ host_id ++ "/sitemaps?" ++ qs

def get_sitemap_url (user_id : Int) (host_id sitemap_id : String) : String :=
  API_BASE_URL ++ "/user/" ++ toString user_id ++ "/hosts/" ++ host_id ++
    "/sitemaps/" ++ sitemap_id

def get_user_sitemaps_url (user_id : Int) (host_id : String) (qs : String) : String :=
  API_BASE_URL ++ "/user/" ++ toString user_id ++ "/hosts/" ++ host_id ++
    "/user-added-sitemaps?" ++ qs

def add_sitemap_url (user_id : Int) (host_id : String) : String :=
  API_BASE_URL ++ "/user/" ++ toString user_id ++ "/hosts/" ++ host_id ++
    "/user-added-sitemaps"

def get_user_sitemap_url (user_id : Int) (host_id sitemap_id : String) : String :=
  API_BASE_URL ++ "/user/" ++ toString user_id ++ "/hosts/" ++ host_id ++
    "/user-added-sitemaps/" ++ sitemap_id

def delete_sitemap_url (user_id : Int) (host_id sitemap_id : String) : String :=
  API_BASE_URL ++ "/user/" ++ toString user_id ++ "/hosts/" ++ host_id ++
    "/user-added-sitemaps/" ++ sitemap_id

def get_indexing_history_url (user_id : Int) (host_id : String) (qs : String) : String :=
  API_BASE_URL ++ "/user/" ++ toString user_id ++ "/hosts/" ++ host_id ++
    "/indexing/history?" ++ qs

def get_indexing_samples_url (user_id : Int) (host_id : String) (qs : String) : String :=
  API_BASE_URL ++ "/user/" ++ toString user_id ++ "/hosts/" ++ host_id ++
    "/indexing/samples?" ++ qs

def get_search_urls_history_url (user_id : Int) (host_id : String) (qs : String) : String :=
  API_BASE_URL ++ "/user/" ++ toString user_id ++ "/hosts/" ++ host_id ++
    "/search-urls/in-search/history?" ++ qs

def get_search_urls_samples_url (user_id : Int) (host_id : String) (qs : String) : String :=
  API_BASE_URL ++ "/user/" ++ toString user_id ++ "/hosts/" ++ host_id ++
    "/search-urls/in-search/samples?" ++ qs

def get_search_events_history_url (user_id : Int) (host_id : String) (qs : String) : String :=
  API_BASE_URL ++ "/user/" ++ toString user_id ++ "/hosts/" ++ host_id ++
    "/search-urls/events/history?" ++ qs

def get_search_events_samples_url (user_id : Int) (host_id : String) (qs : String) : String :=
  API_BASE_URL ++ "/user/" ++ toString user_id ++ "/hosts/" ++ host_id ++
    "/search-urls/events/samples?" ++ qs

def get_important_urls_url (user_id : Int) (host_id : String) : String :=
  API_BASE_URL ++ "/user/" ++ toString user_id ++ "/hosts/" ++ host_id ++ "/important-urls"

/-- Model of `urlencoding::encode`: percent-encode every byte that is not an
unreserved character (`A–Z a–z 0–9 - _ . ~`), uppercase hex. -/
def urlencodingEncode (s : String) : String :=
  String.mk ((stringUtf8Bytes s).flatMap (fun b =>
    if ('0'.toNat ≤ b && b ≤ '9'.toNat) ||
       ('A'.toNat ≤ b && b ≤ 'Z'.toNat) ||
       ('a'.toNat ≤ b && b ≤ 'z'.toNat) ||
       b = '-'.toNat || b = '_'.toNat || b = '.'.toNat || b = '~'.toNat then
      [Char.ofNat b]
    else
      ['%', hexDigitUpper (b / 16), hexDigitUpper (b % 16)]))

def get_important_urls_history_url (user_id : Int) (host_id url_param : String) : String :=
  API_BASE_URL ++ "/user/" ++ toString user_id ++ "/hosts/" ++ host_id ++
    "/important-urls/history?url=" ++ urlencodingEncode url_param

def recrawl_urls_url (user_id : Int) (host_id : String) : String :=
  API_BASE_URL ++ "/user/" ++ toString user_id ++ "/hosts/" ++ host_id ++ "/recrawl/queue"

def get_recrawl_tasks_url (user_id : Int) (host_id : String) (qs : String) : String :=
  API_BASE_URL ++ "/user/" ++ toString user_id ++ "/hosts/" ++ host_id ++
    "/recrawl/queue?" ++ qs

def get_recrawl_task_url (user_id : Int) (host_id task_id : String) : String :=
  API_BASE_URL ++ "/user/" ++ toString user_id ++ "/hosts/" ++ host_id ++
    "/recrawl/queue/" ++ task_id

def get_recrawl_quota_url (user_id : Int) (host_id : String) : String :=
  API_BASE_URL ++ "/user/" ++ toString user_id ++ "/hosts/" ++ host_id ++ "/recrawl/quota"

def get_broken_links_url (user_id : Int) (host_id : String) : String :=
  API_BASE_URL ++ "/user/" ++ toString user_id ++ "/hosts/" ++ host_id ++
    "/links/internal/broken/samples"

def get_broken_links_history_url (user_id : Int) (host_id : String) : String :=
  API_BASE_URL ++ "/user/" ++ toString user_id ++ "/hosts/" ++ host_id ++
    "/links/internal/broken/history"

def get_external_links_url (user_id : Int) (host_id : String) : String :=
  API_BASE_URL ++ "/user/" ++ toString user_id ++ "/hosts/" ++ host_id ++
    "/links/external/samples"

def get_external_links_history_url (user_id : Int) (host_id : String) : String :=
  API_BASE_URL ++ "/user/" ++ toString user_id ++ "/hosts/" ++ host_id ++
    "/links/external/history"

def get_diagnostics_url (user_id : Int) (host_id : String) : String :=
  API_BASE_URL ++ "/user/" ++ toString user_id ++ "/hosts/" ++ host_id ++ "/diagnostics"

/-!
## `verify_host` (`src/client.rs`, lines 129–142)
-/

/-- The enum `ExplicitVerificationType` (`src/dto.rs`, lines 150–159),
`SCREAMING_SNAKE_CASE` on the wire. -/
inductive ExplicitVerificationType where
  | Dns
  | MetaTag
  | HtmlFile
deriving DecidableEq, Repr

/-- Model of `serde_json::to_value` for `ExplicitVerificationType`: a unit variant of a
plain enum serializes as its (renamed) name string. -/
def serializeExplicitVerificationType : ExplicitVerificationType → JsonValue
  | .Dns => .str "DNS"
  | .MetaTag => .str "META_TAG"
  | .HtmlFile => .str "HTML_FILE"

/-- Model of `serde_json::Value::as_str`. -/
def jsonValueAsStr : JsonValue → Option String
  | .str s => some s
  | _ => none

/-- The URL built by `verify_host`: the serialized verification type's string
form (the empty string standing in when `as_str` gives `None`) appended as
the `verification_type` query parameter. -/
def verify_host_url (user_id : Int) (host_id : String)
    (verification_type : ExplicitVerificationType) : String :=
  let serialized := serializeExplicitVerificationType verification_type
  let vt := (jsonValueAsStr serialized).getD ""
  API_BASE_URL ++ "/user/" ++ toString user_id ++ "/hosts/" ++ host_id ++
    "/verification?verification_type=" ++ vt

/-!
## Theorems

### C1 — decoding the structured error body
-/

/-- The four field names the `YandexApiErrorResponse` visitor recognizes;
every other field is an "extra" field the derived deserializer ignores. -/
def isStructuredErrKey (k : String) : Bool :=
  k = "error_code" || k = "error_message" || k = "acceptable_types" || k = "valid_until"

lemma decodeErrFields_done (fields : List (String × JsonValue))
    (code : YandexErrorCode) (msg : String)
    (h : fields.filter (fun kv => isStructuredErrKey kv.1) = []) :
    decodeErrFields fields (some code) (some msg) none none =
      some ⟨code, msg, none, none⟩ := by
  induction fields with
  | nil => rfl
  | cons kv rest ih =>
    obtain ⟨k, v⟩ := kv
    rw [List.filter_cons] at h
    by_cases hk : isStructuredErrKey (k, v).1
    · simp [hk] at h
    · simp only [hk, if_neg, Bool.false_eq_true, not_false_eq_true, if_false] at h
      have h1 : ¬(k = "error_code") := fun he => hk (by simp [isStructuredErrKey, he])
      have h2 : ¬(k = "error_message") := fun he => hk (by simp [isStructuredErrKey, he])
      have h3 : ¬(k = "acceptable_types") := fun he => hk (by simp [isStructuredErrKey, he])
      have h4 : ¬(k = "valid_until") := fun he => hk (by simp [isStructuredErrKey, he])
      simp only [decodeErrFields, if_neg h1, if_neg h2, if_neg h3, if_neg h4]
      exact ih h

lemma decodeErrFields_message (fields : List (String × JsonValue))
    (code : YandexErrorCode) (m : String)
    (h : fields.filter (fun kv => isStructuredErrKey kv.1) =
      [("error_message", JsonValue.str m)]) :
    decodeErrFields fields (some code) none none none =
      some ⟨code, m, none, none⟩ := by
  induction fields with
  | nil => simp at h
  | cons kv rest ih =>
    obtain ⟨k, v⟩ := kv
    rw [List.filter_cons] at h
    by_cases hk : isStructuredErrKey (k, v).1
    · simp only [hk, if_pos, List.cons.injEq, Prod.mk.injEq] at h
      obtain ⟨⟨hkm, hv⟩, hrest⟩ := h
      subst hkm hv
      simp only [decodeErrFields, if_neg (by decide : ¬("error_message" = "error_code")),
        if_pos rfl]
      exact decodeErrFields_done rest code m hrest
    · simp only [hk, Bool.false_eq_true, not_false_eq_true, if_neg, if_false] at h
      have h1 : ¬(k = "error_code") := fun he => hk (by simp [isStructuredErrKey, he])
      have h2 : ¬(k = "error_message") := fun he => hk (by simp [isStructuredErrKey, he])
      have h3 : ¬(k = "acceptable_types") := fun he => hk (by simp [isStructuredErrKey, he])
      have h4 : ¬(k = "valid_until") := fun he => hk (by simp [isStructuredErrKey, he])
      simp only [decodeErrFields, if_neg h1, if_neg h2, if_neg h3, if_neg h4]
      exact ih h

lemma decodeErrFields_code_message (fields : List (String × JsonValue))
    (c m : String)
    (h : fields.filter (fun kv => isStructuredErrKey kv.1) =
      [("error_code", JsonValue.str c), ("error_message", JsonValue.str m)]) :
    decodeErrFields fields none none none none =
      some ⟨codeOfWireString c, m, none, none⟩ := by
  induction fields with
  | nil => simp at h
  | cons kv rest ih =>
    obtain ⟨k, v⟩ := kv
    rw [List.filter_cons] at h
    by_cases hk : isStructuredErrKey (k, v).1
    · simp only [hk, if_pos, List.cons.injEq, Prod.mk.injEq] at h
      obtain ⟨⟨hkc, hv⟩, hrest⟩ := h
      subst hkc hv
      simp only [decodeErrFields, if_pos rfl, decodeYandexErrorCode]
      exact decodeErrFields_message rest (codeOfWireString c) m hrest
    · simp only [hk, Bool.false_eq_true, not_false_eq_true, if_neg, if_false] at h
      have h1 : ¬(k = "error_code") := fun he => hk (by simp [isStructuredErrKey, he])
      have h2 : ¬(k = "error_message") := fun he => hk (by simp [isStructuredErrKey, he])
      have h3 : ¬(k = "acceptable_types") := fun he => hk (by simp [isStructuredErrKey, he])
      have h4 : ¬(k = "valid_until") := fun he => hk (by simp [isStructuredErrKey, he])
      simp only [decodeErrFields, if_neg h1, if_neg h2, if_neg h3, if_neg h4]
      exact ih h

/-- Claim C1.  Every JSON error body whose structured fields are exactly
`error_code: c` (a string) and `error_message: m` (a string) — any number of
extra, unrecognized fields may surround them — decodes successfully into
`YandexApiErrorResponse`; the decoded `error_code` is the matching closed
variant when `c` is one of the known wire names and otherwise the `Unknown`
fallback carrying exactly `c`, and `error_message` is preserved verbatim. -/
theorem errorResponse_decode_c1 (fields : List (String × JsonValue)) (c m : String)
    (h : fields.filter (fun kv => isStructuredErrKey kv.1) =
      [("error_code", JsonValue.str c), ("error_message", JsonValue.str m)]) :
    decodeYandexApiErrorResponse (.obj fields) =
      some ⟨codeOfWireString c, m, none, none⟩ ∧
    (∀ k, knownYandexErrorCodeOfString c = some k → codeOfWireString c = k) ∧
    (knownYandexErrorCodeOfString c = none → codeOfWireString c = .Unknown c) := by
  refine ⟨decodeErrFields_code_message fields c m h, ?_, ?_⟩
  · intro k hk
    simp [codeOfWireString, hk]
  · intro hk
    simp [codeOfWireString, hk]

/-- Witness for C1: the minimal `ACCESS_FORBIDDEN` body of the spec's 403
scenario (with an extra field), and an out-of-set code string. -/
theorem errorResponse_decode_c1_witness :
    (decodeYandexApiErrorResponse
        (.obj [("error_code", .str "ACCESS_FORBIDDEN"),
               ("host_id", .str "http:ya.ru:80"),
               ("error_message", .str "no rights")]) =
      some ⟨codeOfWireString "ACCESS_FORBIDDEN", "no rights", none, none⟩ ∧
     (∀ k, knownYandexErrorCodeOfString "ACCESS_FORBIDDEN" = some k →
        codeOfWireString "ACCESS_FORBIDDEN" = k) ∧
     (knownYandexErrorCodeOfString "ACCESS_FORBIDDEN" = none →
        codeOfWireString "ACCESS_FORBIDDEN" = .Unknown "ACCESS_FORBIDDEN")) ∧
    (decodeYandexApiErrorResponse
        (.obj [("error_code", .str "SOME_UNKNOWN_ERROR"),
               ("error_message", .str "unknown error occurred")]) =
      some ⟨codeOfWireString "SOME_UNKNOWN_ERROR", "unknown error occurred", none, none⟩ ∧
     (∀ k, knownYandexErrorCodeOfString "SOME_UNKNOWN_ERROR" = some k →
        codeOfWireString "SOME_UNKNOWN_ERROR" = k) ∧
     (knownYandexErrorCodeOfString "SOME_UNKNOWN_ERROR" = none →
        codeOfWireString "SOME_UNKNOWN_ERROR" = .Unknown "SOME_UNKNOWN_ERROR")) :=
  ⟨errorResponse_decode_c1 _ "ACCESS_FORBIDDEN" "no rights" rfl,
   errorResponse_decode_c1 _ "SOME_UNKNOWN_ERROR" "unknown error occurred" rfl⟩

/-!
### C8 — `Display` for the taxonomy
-/

/-- Claim C8.  The display rendering of every taxonomy entry is total and
canonical: a closed variant renders as exactly its `SCREAMING_SNAKE_CASE`
wire name (the quotes of the intermediate JSON rendering are trimmed away),
and the `Unknown` fallback renders as exactly the raw string it captured. -/
theorem errorCode_display_c8 (c : YandexErrorCode) :
    (∀ s, codeWireName c = some s → displayYandexErrorCode c = s) ∧
    (codeWireName c = none → ∃ s, c = .Unknown s ∧ displayYandexErrorCode c = s) := by
  cases c
  case Unknown s =>
    exact ⟨fun s' h => by simp [codeWireName] at h, fun _ => ⟨s, rfl, rfl⟩⟩
  all_goals
    refine ⟨fun s h => ?_, fun h => by simp [codeWireName] at h⟩
  all_goals
    simp only [codeWireName, codeWireString, Option.some.injEq] at h
  all_goals
    subst h
  all_goals decide

/-- Witness for C8: a closed variant and the fallback, both rendered. -/
theorem errorCode_display_c8_witness :
    (displayYandexErrorCode .AccessForbidden = "ACCESS_FORBIDDEN") ∧
    (∃ s, YandexErrorCode.Unknown "CUSTOM_ERROR" = .Unknown s ∧
      displayYandexErrorCode (.Unknown "CUSTOM_ERROR") = s) :=
  ⟨(errorCode_display_c8 .AccessForbidden).1 "ACCESS_FORBIDDEN" rfl,
   (errorCode_display_c8 (.Unknown "CUSTOM_ERROR")).2 rfl⟩

/-!
### C2 — the error classifier `parse_error`
-/

/-- Claim C2.  For every failure-status response the classifier is total and
produces exactly one of the three documented outcomes: (a) body text read and
structurally decoded — a structured `ApiError` carrying the numeric status
and the full decoded error object; (b) body text read but not decodable — a
`GenericApiError` carrying the status display and the raw text verbatim;
(c) body read failed — a `GenericApiError` carrying the status display and
the read failure's description (the low-level error wrapped, not
propagated). -/
theorem parse_error_classifies_c2 (response : HttpResponse) :
    (∀ t api_error, response.body = .ok t → errorResponseFromStr t = some api_error →
      parse_error response = .ApiError response.status api_error) ∧
    (∀ t, response.body = .ok t → errorResponseFromStr t = none →
      parse_error response =
        .GenericApiError ("Status: " ++ statusDisplay response.status ++ ", Error: " ++ t)) ∧
    (∀ e, response.body = .error e →
      parse_error response =
        .GenericApiError
          ("Status: " ++ statusDisplay response.status ++
            ", Failed to read error response: " ++ e)) := by
  refine ⟨fun t api_error hb hd => ?_, fun t hb hd => ?_, fun e hb => ?_⟩
  · simp [parse_error, hb, hd]
  · simp [parse_error, hb, hd]
  · simp [parse_error, hb]

/-- Witness for C2, on the spec's end-to-end scenarios: a 403 with the
structured `ACCESS_FORBIDDEN` body, a 500 with a raw HTML body, and a
body-read failure. -/
theorem parse_error_classifies_c2_witness :
    (parse_error ⟨403, .ok "\x7b\"error_code\":\"ACCESS_FORBIDDEN\",\"error_message\":\"no rights\"\x7d"⟩ =
      .ApiError 403 ⟨.AccessForbidden, "no rights", none, none⟩) ∧
    (parse_error ⟨500, .ok "<html>Internal Server Error</html>"⟩ =
      .GenericApiError
        ("Status: " ++ statusDisplay 500 ++ ", Error: " ++ "<html>Internal Server Error</html>")) ∧
    (parse_error ⟨500, .error "connection reset"⟩ =
      .GenericApiError
        ("Status: " ++ statusDisplay 500 ++
          ", Failed to read error response: " ++ "connection reset")) :=
  ⟨(parse_error_classifies_c2 _).1 _ ⟨.AccessForbidden, "no rights", none, none⟩ rfl rfl,
   (parse_error_classifies_c2 _).2.1 _ rfl rfl,
   (parse_error_classifies_c2 _).2.2 _ rfl⟩

/-!
### C3 — status-driven success/failure in `handle_response`
-/

/-- Claim C3.  Success versus failure is determined solely by the status class:
every non-2xx response is routed to `parse_error` regardless of body content,
and a 2xx response decodes the body against the caller's expected shape — a
decode failure surfaces as the wrapped decode error (`HttpError`), a
constructor distinct from both API-error variants. -/
theorem handle_response_c3 {T : Type} (dec : JsonValue → Option T) (response : HttpResponse) :
    (¬(200 ≤ response.status ∧ response.status ≤ 299) →
      handle_response dec response = .error (parse_error response)) ∧
    (200 ≤ response.status → response.status ≤ 299 →
      ∀ t v, response.body = .ok t → (json_from_str t).bind dec = some v →
        handle_response dec response = .ok v) ∧
    (200 ≤ response.status → response.status ≤ 299 →
      ∀ t, response.body = .ok t → (json_from_str t).bind dec = none →
        handle_response dec response = .error (.HttpError .decodeBody) ∧
        (∀ s r, YandexWebmasterError.HttpError .decodeBody ≠ .ApiError s r) ∧
        (∀ m, YandexWebmasterError.HttpError .decodeBody ≠ .GenericApiError m)) := by
  refine ⟨fun h => ?_, fun h1 h2 t v hb hd => ?_, fun h1 h2 t hb hd => ?_⟩
  · rw [Decidable.not_and_iff_or_not] at h
    rcases h with h | h <;>
      simp [handle_response, isSuccessStatus, Nat.lt_of_not_le h]
  · simp [handle_response, isSuccessStatus, h1, h2, hb, hd]
  · refine ⟨by simp [handle_response, isSuccessStatus, h1, h2, hb, hd], ?_, ?_⟩ <;>
      intros <;> simp

/-- Witness for C3: a 404 routed to the classifier, a 200 whose body decodes
as `UserResponse`, and a 200 whose body does not. -/
theorem handle_response_c3_witness :
    (handle_response decodeUserResponse ⟨404, .ok "\x7b\"error_code\":\"HOST_NOT_FOUND\",\"error_message\":\"gone\"\x7d"⟩ =
      .error (parse_error ⟨404, .ok "\x7b\"error_code\":\"HOST_NOT_FOUND\",\"error_message\":\"gone\"\x7d"⟩)) ∧
    (handle_response decodeUserResponse ⟨200, .ok "\x7b\"user_id\": 42\x7d"⟩ = .ok ⟨42⟩) ∧
    (handle_response decodeUserResponse ⟨200, .ok "<html>not json</html>"⟩ =
      .error (.HttpError .decodeBody) ∧
     (∀ s r, YandexWebmasterError.HttpError .decodeBody ≠ .ApiError s r) ∧
     (∀ m, YandexWebmasterError.HttpError .decodeBody ≠ .GenericApiError m)) :=
  ⟨(handle_response_c3 decodeUserResponse _).1 (by decide),
   (handle_response_c3 decodeUserResponse _).2.1 (by decide) (by decide) _ ⟨42⟩ rfl rfl,
   (handle_response_c3 decodeUserResponse _).2.2 (by decide) (by decide) _ rfl rfl⟩

/-!
### C9 — the generic POST helper
-/

/-- Claim C9.  The body is serialized before any send: a serialization failure
is returned as `ParseError` and the transport is never consulted (the result
does not depend on it); on success the request goes out as a POST carrying
the `Content-Type: application/json` header and the serialized JSON body, and
its response is handled by exactly the same status-driven decoding
(`handle_response`) a GET's response goes through. -/
theorem clientPost_c9 {T : Type} (dec : JsonValue → Option T) (url : String)
    (ser : Except String String) (net : SentRequest → Except String HttpResponse) :
    (∀ e, ser = .error e →
      clientPost dec url ser net = .error (.ParseError e) ∧
      ∀ net2, clientPost dec url ser net2 = clientPost dec url ser net) ∧
    (∀ b, ser = .ok b →
      (∀ e, net { method := "POST", url := url,
                  headers := [("Content-Type", "application/json")],
                  body := some b } = .error e →
        clientPost dec url ser net = .error (.MiddlewareHttpError e)) ∧
      (∀ response, net { method := "POST", url := url,
                         headers := [("Content-Type", "application/json")],
                         body := some b } = .ok response →
        clientPost dec url ser net = handle_response dec response ∧
        (∀ net2, net2 { method := "GET", url := url, headers := [], body := none } =
            .ok response →
          clientPost dec url ser net = clientGet dec url net2))) := by
  refine ⟨fun e hser => ⟨?_, fun net2 => ?_⟩, fun b hser => ⟨fun e hnet => ?_, ?_⟩⟩
  · simp [clientPost, hser]
  · simp [clientPost, hser]
  · simp [clientPost, hser, hnet]
  · intro response hnet
    refine ⟨by simp [clientPost, hser, hnet], fun net2 hnet2 => ?_⟩
    simp [clientPost, clientGet, hser, hnet, hnet2]

/-- Witness for C9: a failing serialization (transport-independent
`ParseError`), and a successful POST of `{}` handled like a GET. -/
theorem clientPost_c9_witness :
    (clientPost decodeUserResponse "https://api.webmaster.yandex.net/v4/x"
        (.error "key must be a string")
        (fun _ => .ok ⟨200, .ok "\x7b\"user_id\": 1\x7d"⟩) =
        .error (.ParseError "key must be a string") ∧
      ∀ net2, clientPost decodeUserResponse "https://api.webmaster.yandex.net/v4/x"
        (.error "key must be a string") net2 =
        clientPost decodeUserResponse "https://api.webmaster.yandex.net/v4/x"
          (.error "key must be a string")
          (fun _ => .ok ⟨200, .ok "\x7b\"user_id\": 1\x7d"⟩)) ∧
    (clientPost decodeUserResponse "https://api.webmaster.yandex.net/v4/x"
        (.ok "\x7b\x7d") (fun _ => .ok ⟨200, .ok "\x7b\"user_id\": 1\x7d"⟩) =
      handle_response decodeUserResponse ⟨200, .ok "\x7b\"user_id\": 1\x7d"⟩ ∧
      (∀ net2, net2 { method := "GET", url := "https://api.webmaster.yandex.net/v4/x",
                      headers := [], body := none } = .ok ⟨200, .ok "\x7b\"user_id\": 1\x7d"⟩ →
        clientPost decodeUserResponse "https://api.webmaster.yandex.net/v4/x"
          (.ok "\x7b\x7d") (fun _ => .ok ⟨200, .ok "\x7b\"user_id\": 1\x7d"⟩) =
        clientGet decodeUserResponse "https://api.webmaster.yandex.net/v4/x" net2)) :=
  ⟨(clientPost_c9 decodeUserResponse _ _ _).1 "key must be a string" rfl,
   ((clientPost_c9 decodeUserResponse _ _ _).2 "\x7b\x7d" rfl).2 ⟨200, .ok "\x7b\"user_id\": 1\x7d"⟩ rfl⟩

/-!
### C5 — the authentication middleware
-/

lemma filter_eq_of_insert (value : String) (headers : List (String × String)) :
    (headerMapInsert "authorization" value headers).filter
        (fun p => p.1 = "authorization") = [("authorization", value)] := by
  simp only [headerMapInsert, List.filter_cons]
  rw [if_pos (by simp)]
  rw [List.filter_filter]
  have : ∀ p : String × String,
      (decide (p.1 = "authorization") && decide (p.1 ≠ "authorization")) = false := by
    intro p
    by_cases h : p.1 = "authorization" <;> simp [h]
  simp only [this, List.filter_false]

lemma filter_ne_of_insert (value : String) (headers : List (String × String)) :
    (headerMapInsert "authorization" value headers).filter
        (fun p => p.1 ≠ "authorization") =
      headers.filter (fun p => p.1 ≠ "authorization") := by
  simp only [headerMapInsert, List.filter_cons]
  rw [if_neg (by simp)]
  rw [List.filter_filter]
  simp only [Bool.and_self]

/-- Claim C5.  The middleware attaches a single `authorization` header whose
value is exactly `"OAuth "` followed by the held token, and changes nothing
else about the request (method, URL, body and every other header are
preserved); if the value is not a valid header value, the call fails with the
wrapped middleware error and no request value reaches the inner sender. -/
theorem authMiddleware_c5 (oauth_token : String) (req : SentRequest) :
    (isValidHeaderValue ("OAuth " ++ oauth_token) = true →
      ∃ req', authMiddlewareHandle oauth_token req = .ok req' ∧
        req'.method = req.method ∧ req'.url = req.url ∧ req'.body = req.body ∧
        req'.headers.filter (fun p => p.1 = "authorization") =
          [("authorization", "OAuth " ++ oauth_token)] ∧
        req'.headers.filter (fun p => p.1 ≠ "authorization") =
          req.headers.filter (fun p => p.1 ≠ "authorization")) ∧
    (isValidHeaderValue ("OAuth " ++ oauth_token) = false →
      authMiddlewareHandle oauth_token req =
        .error (.MiddlewareError
          "Failed to create authorization header: failed to parse header value")) := by
  constructor
  · intro hv
    refine ⟨{ req with headers :=
        headerMapInsert "authorization" ("OAuth " ++ oauth_token) req.headers },
      by simp [authMiddlewareHandle, hv], rfl, rfl, rfl, ?_, ?_⟩
    · exact filter_eq_of_insert _ req.headers
    · exact filter_ne_of_insert _ req.headers
  · intro hv
    simp [authMiddlewareHandle, hv]

/-- Witness for C5: a well-formed token is attached as the single
authorization header, and a token with an embedded newline is rejected before
any send. -/
theorem authMiddleware_c5_witness :
    (∃ req', authMiddlewareHandle "abc123"
        { method := "GET", url := fetchUserUrl,
          headers := [("accept", "application/json")], body := none } = .ok req' ∧
      req'.method = "GET" ∧ req'.url = fetchUserUrl ∧ req'.body = none ∧
      req'.headers.filter (fun p => p.1 = "authorization") =
        [("authorization", "OAuth " ++ "abc123")] ∧
      req'.headers.filter (fun p => p.1 ≠ "authorization") =
        [("accept", "application/json")].filter (fun p => p.1 ≠ "authorization")) ∧
    (authMiddlewareHandle "bad\ntoken"
        { method := "GET", url := fetchUserUrl, headers := [], body := none } =
      .error (.MiddlewareError
        "Failed to create authorization header: failed to parse header value")) := by
  constructor
  · have h := (authMiddleware_c5 "abc123"
      { method := "GET", url := fetchUserUrl,
        headers := [("accept", "application/json")], body := none }).1 (by decide)
    obtain ⟨req', h1, h2, h3, h4, h5, h6⟩ := h
    exact ⟨req', h1, h2, h3, h4, h5, h6⟩
  · exact (authMiddleware_c5 "bad\ntoken"
      { method := "GET", url := fetchUserUrl, headers := [], body := none }).2 (by decide)

/-!
### C6 — construction-time identity resolution
-/

/-- Claim C6.  Construction consumes exactly one identity-resolution exchange,
a GET on `{base}/user`: a transport failure or a non-2xx status makes
`clientNew` return an error (no client value exists in the `.ok` arm), and on
success the returned client's `user_id` is exactly the `user_id` field of the
decoded bootstrap response (and its query configuration is `Unindexed`);
nothing afterwards can change the stored identity. -/
theorem clientNew_c6 (net : SentRequest → Except String HttpResponse) :
    (fetchUserUrl = "https://api.webmaster.yandex.net/v4/user" ∧
      userBootstrapRequest.method = "GET" ∧ userBootstrapRequest.url = fetchUserUrl ∧
      userBootstrapRequest.body = none) ∧
    (∀ e, net userBootstrapRequest = .error e →
      clientNew net = .error (.MiddlewareHttpError e)) ∧
    (∀ response, net userBootstrapRequest = .ok response →
      ¬(200 ≤ response.status ∧ response.status ≤ 299) →
      clientNew net = .error (parse_error response)) ∧
    (∀ u, fetch_user net = .ok u →
      clientNew net = .ok { user_id := u.user_id, qs := .unindexed }) := by
  refine ⟨⟨rfl, rfl, rfl, rfl⟩, fun e hnet => ?_, fun response hnet hst => ?_,
    fun u hu => ?_⟩
  · simp [clientNew, fetch_user, hnet]
  · rw [Decidable.not_and_iff_or_not] at hst
    rcases hst with h | h <;>
      simp [clientNew, fetch_user, hnet, isSuccessStatus, Nat.lt_of_not_le h]
  · simp [clientNew, hu]

/-- Witness for C6: a 403 bootstrap refusal yields no client; a transport
failure yields no client; a 200 bootstrap yields a client with the decoded
`user_id`. -/
theorem clientNew_c6_witness :
    (clientNew (fun _ => .ok ⟨403, .ok "\x7b\"error_code\":\"INVALID_OAUTH_TOKEN\",\"error_message\":\"bad token\"\x7d"⟩) =
      .error (parse_error ⟨403, .ok "\x7b\"error_code\":\"INVALID_OAUTH_TOKEN\",\"error_message\":\"bad token\"\x7d"⟩)) ∧
    (clientNew (fun _ => .error "connection refused") =
      .error (.MiddlewareHttpError "connection refused")) ∧
    (clientNew (fun _ => .ok ⟨200, .ok "\x7b\"user_id\": 42\x7d"⟩) =
      .ok { user_id := 42, qs := .unindexed }) := by
  refine ⟨?_, ?_, ?_⟩
  · exact (clientNew_c6 _).2.2.1 _ rfl (by decide)
  · exact (clientNew_c6 _).2.1 _ rfl
  · exact (clientNew_c6 _).2.2.2 ⟨42⟩ rfl

/-!
### C4 — query-string encoding of filter objects
-/

lemma countP_query_indicator_map (qi : List ApiQueryIndicator) (key : String) :
    ((qi.map fun i => ("query_indicator", qsPercentEncode (apiQueryIndicatorWire i))).countP
      (fun p => p.1 = key)) = if "query_indicator" = key then qi.length else 0 := by
  induction qi with
  | nil => simp
  | cons a l ih =>
    by_cases h : "query_indicator" = key <;> simp [List.countP_cons, ih, h]

lemma mem_query_indicator_map (qi : List ApiQueryIndicator) (p : String × String)
    (hp : p ∈ qi.map fun i => ("query_indicator", qsPercentEncode (apiQueryIndicatorWire i))) :
    p.1 = "query_indicator" := by
  simp only [List.mem_map] at hp
  obtain ⟨i, _, rfl⟩ := hp
  rfl

/-- Claim C4.  Under the client's query-string configuration
(`ArrayFormat::Unindexed`), a `QueryAnalyticsRequest` serializes so that an
absent optional field contributes no key, a present optional scalar field
contributes exactly one pair, and the array field contributes exactly one
pair per element, all under the same bare key (`query_indicator` — no index
brackets, no comma-joining: every emitted key is one of the four bare field
names); the query string is those pairs joined with `&`. -/
theorem queryAnalytics_qs_c4 (r : QueryAnalyticsRequest) :
    ((queryAnalyticsPairs r).countP (fun p => p.1 = "query_indicator") =
      r.query_indicator.length) ∧
    (r.device_type_indicator = none →
      (queryAnalyticsPairs r).countP (fun p => p.1 = "device_type_indicator") = 0) ∧
    (∀ d, r.device_type_indicator = some d →
      (queryAnalyticsPairs r).countP (fun p => p.1 = "device_type_indicator") = 1) ∧
    (r.date_from = none →
      (queryAnalyticsPairs r).countP (fun p => p.1 = "date_from") = 0) ∧
    (∀ d, r.date_from = some d →
      (queryAnalyticsPairs r).countP (fun p => p.1 = "date_from") = 1) ∧
    (r.date_to = none →
      (queryAnalyticsPairs r).countP (fun p => p.1 = "date_to") = 0) ∧
    (∀ d, r.date_to = some d →
      (queryAnalyticsPairs r).countP (fun p => p.1 = "date_to") = 1) ∧
    (∀ p ∈ queryAnalyticsPairs r,
      p.1 = "query_indicator" ∨ p.1 = "device_type_indicator" ∨
      p.1 = "date_from" ∨ p.1 = "date_to") ∧
    serializeQueryAnalyticsRequest r =
      String.intercalate "&" ((queryAnalyticsPairs r).map (fun p => p.1 ++ "=" ++ p.2)) := by
  obtain ⟨qi, dti, df, dt⟩ := r
  refine ⟨?_, ?_, ?_, ?_, ?_, ?_, ?_, fun p hp => ?mem, rfl⟩
  case mem =>
    simp only [queryAnalyticsPairs, List.mem_append] at hp
    rcases hp with ((hp | hp) | hp) | hp
    · exact Or.inl (mem_query_indicator_map qi p hp)
    · cases dti
      · simp at hp
      · simp only [List.mem_singleton] at hp
        subst hp
        exact Or.inr (Or.inl rfl)
    · cases df
      · simp at hp
      · simp only [List.mem_singleton] at hp
        subst hp
        exact Or.inr (Or.inr (Or.inl rfl))
    · cases dt
      · simp at hp
      · simp only [List.mem_singleton] at hp
        subst hp
        exact Or.inr (Or.inr (Or.inr rfl))
  all_goals cases dti <;> cases df <;> cases dt <;>
    simp [queryAnalyticsPairs, List.countP_append, List.countP_cons,
      countP_query_indicator_map]

/-- Witness for C4, on the spec's round-trip scenario: two indicators, a
present `date_from`, absent `date_to` and absent device type — exactly two
repeated `query_indicator` pairs, one `date_from` pair and no other keys. -/
theorem queryAnalytics_qs_c4_witness :
    (((queryAnalyticsPairs
        { query_indicator := [.TotalShows, .TotalClicks],
          device_type_indicator := none,
          date_from := some ⟨"2024-01-01T00:00:00Z"⟩,
          date_to := none }).countP (fun p => p.1 = "query_indicator") =
      [ApiQueryIndicator.TotalShows, ApiQueryIndicator.TotalClicks].length) ∧
     ((queryAnalyticsPairs
        { query_indicator := [.TotalShows, .TotalClicks],
          device_type_indicator := none,
          date_from := some ⟨"2024-01-01T00:00:00Z"⟩,
          date_to := none }).countP (fun p => p.1 = "date_to") = 0) ∧
     ((queryAnalyticsPairs
        { query_indicator := [.TotalShows, .TotalClicks],
          device_type_indicator := none,
          date_from := some ⟨"2024-01-01T00:00:00Z"⟩,
          date_to := none }).countP (fun p => p.1 = "date_from") = 1)) := by
  have h := queryAnalytics_qs_c4
    { query_indicator := [.TotalShows, .TotalClicks],
      device_type_indicator := none,
      date_from := some ⟨"2024-01-01T00:00:00Z"⟩,
      date_to := none }
  exact ⟨h.1, h.2.2.2.2.2.1 rfl, h.2.2.2.2.1 ⟨"2024-01-01T00:00:00Z"⟩ rfl⟩

/-!
### C7 — every endpoint URL is account-scoped
-/

/-- Claim C7.  Every endpoint method of the constructed client builds its URL as
the fixed versioned base address followed by `/user/` and the client's
resolved numeric `user_id`, then the operation's own path and query: each
builder's output is literally `urlAccountScope user_id` followed by a
`/`-initial remainder, so no post-construction operation addresses anything
outside that account-scoped prefix. -/
theorem endpoint_urls_scoped_c7 (user_id : Int)
    (host_id query_id sitemap_id task_id url_param qs : String)
    (request : QueryAnalyticsRequest) (vt : ExplicitVerificationType) :
    urlAccountScope user_id = API_BASE_URL ++ "/user/" ++ toString user_id ∧
    get_hosts_url user_id = urlAccountScope user_id ++ "/hosts" ∧
    add_host_url user_id = urlAccountScope user_id ++ "/hosts" ∧
    get_host_url user_id host_id = urlAccountScope user_id ++ "/hosts/" ++ host_id ∧
    delete_host_url user_id host_id = urlAccountScope user_id ++ "/hosts/" ++ host_id ∧
    get_verification_status_url user_id host_id =
      urlAccountScope user_id ++ "/hosts/" ++ host_id ++ "/verification" ∧
    verify_host_url user_id host_id vt =
      urlAccountScope user_id ++ "/hosts/" ++ host_id ++
        "/verification?verification_type=" ++
        ((jsonValueAsStr (serializeExplicitVerificationType vt)).getD "") ∧
    get_owners_url user_id host_id =
      urlAccountScope user_id ++ "/hosts/" ++ host_id ++ "/owners" ∧
    get_host_summary_url user_id host_id =
      urlAccountScope user_id ++ "/hosts/" ++ host_id ++ "/summary" ∧
    get_sqi_history_url user_id host_id qs =
      urlAccountScope user_id ++ "/hosts/" ++ host_id ++ "/sqi-history?" ++ qs ∧
    get_popular_queries_url user_id host_id qs =
      urlAccountScope user_id ++ "/hosts/" ++ host_id ++ "/search-queries/popular?" ++ qs ∧
    get_query_analytics_url user_id host_id request =
      urlAccountScope user_id ++ "/hosts/" ++ host_id ++ "/search-queries/all/history?" ++
        serializeQueryAnalyticsRequest request ∧
    get_query_history_url user_id host_id query_id qs =
      urlAccountScope user_id ++ "/hosts/" ++ host_id ++ "/search-queries/" ++ query_id ++
        "/history?" ++ qs ∧
    get_sitemaps_url user_id host_id qs =
      urlAccountScope user_id ++ "/hosts/" ++ host_id ++ "/sitemaps?" ++ qs ∧
    get_sitemap_url user_id host_id sitemap_id =
      urlAccountScope user_id ++ "/hosts/" ++ host_id ++ "/sitemaps/" ++ sitemap_id ∧
    get_user_sitemaps_url user_id host_id qs =
      urlAccountScope user_id ++ "/hosts/" ++ host_id ++ "/user-added-sitemaps?" ++ qs ∧
    add_sitemap_url user_id host_id =
      urlAccountScope user_id ++ "/hosts/" ++ host_id ++ "/user-added-sitemaps" ∧
    get_user_sitemap_url user_id host_id sitemap_id =
      urlAccountScope user_id ++ "/hosts/" ++ host_id ++ "/user-added-sitemaps/" ++
        sitemap_id ∧
    delete_sitemap_url user_id host_id sitemap_id =
      urlAccountScope user_id ++ "/hosts/" ++ host_id ++ "/user-added-sitemaps/" ++
        sitemap_id ∧
    get_indexing_history_url user_id host_id qs =
      urlAccountScope user_id ++ "/hosts/" ++ host_id ++ "/indexing/history?" ++ qs ∧
    get_indexing_samples_url user_id host_id qs =
      urlAccountScope user_id ++ "/hosts/" ++ host_id ++ "/indexing/samples?" ++ qs ∧
    get_search_urls_history_url user_id host_id qs =
      urlAccountScope user_id ++ "/hosts/" ++ host_id ++ "/search-urls/in-search/history?" ++
        qs ∧
    get_search_urls_samples_url user_id host_id qs =
      urlAccountScope user_id ++ "/hosts/" ++ host_id ++ "/search-urls/in-search/samples?" ++
        qs ∧
    get_search_events_history_url user_id host_id qs =
      urlAccountScope user_id ++ "/hosts/" ++ host_id ++ "/search-urls/events/history?" ++
        qs ∧
    get_search_events_samples_url user_id host_id qs =
      urlAccountScope user_id ++ "/hosts/" ++ host_id ++ "/search-urls/events/samples?" ++
        qs ∧
    get_important_urls_url user_id host_id =
      urlAccountScope user_id ++ "/hosts/" ++ host_id ++ "/important-urls" ∧
    get_important_urls_history_url user_id host_id url_param =
      urlAccountScope user_id ++ "/hosts/" ++ host_id ++ "/important-urls/history?url=" ++
        urlencodingEncode url_param ∧
    recrawl_urls_url user_id host_id =
      urlAccountScope user_id ++ "/hosts/" ++ host_id ++ "/recrawl/queue" ∧
    get_recrawl_tasks_url user_id host_id qs =
      urlAccountScope user_id ++ "/hosts/" ++ host_id ++ "/recrawl/queue?" ++ qs ∧
    get_recrawl_task_url user_id host_id task_id =
      urlAccountScope user_id ++ "/hosts/" ++ host_id ++ "/recrawl/queue/" ++ task_id ∧
    get_recrawl_quota_url user_id host_id =
      urlAccountScope user_id ++ "/hosts/" ++ host_id ++ "/recrawl/quota" ∧
    get_broken_links_url user_id host_id =
      urlAccountScope user_id ++ "/hosts/" ++ host_id ++ "/links/internal/broken/samples" ∧
    get_broken_links_history_url user_id host_id =
      urlAccountScope user_id ++ "/hosts/" ++ host_id ++ "/links/internal/broken/history" ∧
    get_external_links_url user_id host_id =
      urlAccountScope user_id ++ "/hosts/" ++ host_id ++ "/links/external/samples" ∧
    get_external_links_history_url user_id host_id =
      urlAccountScope user_id ++ "/hosts/" ++ host_id ++ "/links/external/history" ∧
    get_diagnostics_url user_id host_id =
      urlAccountScope user_id ++ "/hosts/" ++ host_id ++ "/diagnostics" :=
  ⟨rfl, rfl, rfl, rfl, rfl, rfl, rfl, rfl, rfl, rfl, rfl, rfl, rfl, rfl, rfl, rfl, rfl, rfl,
   rfl, rfl, rfl, rfl, rfl, rfl, rfl, rfl, rfl, rfl, rfl, rfl, rfl, rfl, rfl, rfl, rfl, rfl⟩

/-!
### C10 — `verify_host` never takes the empty-string fallback
-/

/-- Claim C10.  For every `ExplicitVerificationType`, `serde_json::to_value`
yields a JSON string (its `SCREAMING_SNAKE_CASE` name), so `verify_host`'s
`as_str` succeeds, the `unwrap_or("")` fallback is never taken, and the built
URL's query is exactly `verification_type=` followed by that non-empty
name. -/
theorem verify_host_total_c10 (user_id : Int) (host_id : String)
    (vt : ExplicitVerificationType) :
    ∃ name, serializeExplicitVerificationType vt = .str name ∧
      jsonValueAsStr (serializeExplicitVerificationType vt) = some name ∧
      name ≠ "" ∧
      (name = "DNS" ∨ name = "META_TAG" ∨ name = "HTML_FILE") ∧
      verify_host_url user_id host_id vt =
        urlAccountScope user_id ++ "/hosts/" ++ host_id ++
          "/verification?verification_type=" ++ name := by
  cases vt
  · exact ⟨"DNS", rfl, rfl, by decide, Or.inl rfl, rfl⟩
  · exact ⟨"META_TAG", rfl, rfl, by decide, Or.inr (Or.inl rfl), rfl⟩
  · exact ⟨"HTML_FILE", rfl, rfl, by decide, Or.inr (Or.inr rfl), rfl⟩
